import Mathlib

/-!
Verification of the wawebupdate polling plugin (src/wawebupdate.py).

The development shallowly embeds the pure logic of the plugin:
* version strings "X.Y.Z" and their parse/render (semver triples, as used by
  `VersionInfo.parse` / `str(VersionInfo)` on the plain triples this plugin stores),
* the configuration accessors `last_known_version` (getter and setter),
* one iteration of the poll loop (`_poll_once` plus the `poll` wrapper), as a
  function from the stored configuration value and the outcome of the HTTP fetch
  to an ordered trace of externally visible actions and the new configuration,
* the notification fan-out `_notify_change` over the joined rooms, with the
  per-room exception handling made explicit.
-/

deriving instance DecidableEq for Except

namespace WAWeb

/-- Strings are modelled as lists of characters. -/
abbrev Str := List Char

/-- Shorthand turning a Lean string literal into the `Str` model. -/
def toL (s : String) : Str := s.data

/-- Numeric value of a decimal digit character (code point minus that of zero). -/
def digitVal (c : Char) : Nat := c.toNat - 48

/-- Little-endian decimal digits of `n`, with explicit fuel (`fuel ≥ n` suffices). -/
def natDigitsAux : Nat → Nat → List Char
  | 0, _ => []
  | _ + 1, 0 => []
  | fuel + 1, n + 1 => Nat.digitChar ((n + 1) % 10) :: natDigitsAux fuel ((n + 1) / 10)

/-- Decimal rendering of a natural number, matching the output of Python `str(int)`. -/
def renderNat (n : Nat) : Str :=
  if n = 0 then ['0'] else (natDigitsAux n n).reverse

/-- Parse a decimal numeral as the semver grammar `0|[1-9][0-9]*` does:
nonempty, digits only, no leading zero. -/
def parseNat (l : Str) : Option Nat :=
  if l = [] then none
  else if l.all Char.isDigit = false then none
  else if l.head? = some '0' ∧ l ≠ ['0'] then none
  else some (l.foldl (fun a c => a * 10 + digitVal c) 0)

/-- Split a character list at every dot, like `"a.b.c".split "."`.
`semver.VersionInfo.parse` requires exactly the three components this yields. -/
def splitOnDot : Str → List Str
  | [] => [[]]
  | c :: rest =>
    if c = '.' then [] :: splitOnDot rest
    else
      match splitOnDot rest with
      | [] => [[c]]
      | p :: ps => (c :: p) :: ps

/-- A semantic version triple, the image of `semver.VersionInfo` for the plain
`major.minor.patch` strings this plugin stores and receives. -/
structure Version where
  major : Nat
  minor : Nat
  patch : Nat
deriving DecidableEq, Repr

/-- Parsing as `VersionInfo.parse` does: accept exactly `major.minor.patch` with numeric
components and no leading zeros; anything else (including pre-release or build
suffixes) is rejected. -/
def parseVersion (s : Str) : Option Version :=
  match splitOnDot s with
  | [a, b, c] =>
    match parseNat a, parseNat b, parseNat c with
    | some x, some y, some z => some ⟨x, y, z⟩
    | _, _, _ => none
  | _ => none

/-- Rendering as `str(VersionInfo)` does for a plain triple: `major.minor.patch` in decimal. -/
def renderVersion (v : Version) : Str :=
  renderNat v.major ++ '.' :: (renderNat v.minor ++ '.' :: renderNat v.patch)

/-- The comparison `new > old` on `semver.VersionInfo`, restricted to plain triples:
lexicographic comparison of major, then minor, then patch. -/
def verGt (a b : Version) : Bool :=
  if a.major = b.major then
    if a.minor = b.minor then decide (b.patch < a.patch)
    else decide (b.minor < a.minor)
  else decide (b.major < a.major)

/-! ## Configuration accessors (src lines 60–68)

The stored configuration value for `last_known_version` is either absent
(`none`, YAML null) or a string.  The getter re-parses on every read and raises
(`ValueError` from `VersionInfo.parse`) on a non-empty unparsable value; the
setter stores `str(val)` and saves synchronously. -/

/-- Errors that can escape `_poll_once` (all are caught by `poll`). -/
inductive PollErr
  | parse
  | network
  | badResponse
deriving DecidableEq, Repr

/-- Getter `last_known_version`: `return VersionInfo.parse(ver) if ver else None`.
Absent or empty is "no baseline"; a non-empty unparsable value raises. -/
def last_known_version (cfg : Option Str) : Except PollErr (Option Version) :=
  match cfg with
  | none => .ok none
  | some s =>
    if s = [] then .ok none
    else
      match parseVersion s with
      | some v => .ok (some v)
      | none => .error .parse

/-- Setter `last_known_version`: store `str(val)` and save the config. -/
def set_last_known_version (v : Version) : Option Str :=
  some (renderVersion v)

/-! ## One poll cycle (src lines 70–94) -/

/-- Python `str(x)` on an optional `VersionInfo`: `str(None)` is the four
characters `None`, never the empty string. -/
def pyStrOptVersion : Option Version → Str
  | none => toL "None"
  | some v => renderVersion v

/-- The Python `or` on strings: the left operand unless it is falsy (empty). -/
def pyOr (s fallback : Str) : Str := if s = [] then fallback else s

/-- The fallback literal `"2.2222.11"` from src line 80. -/
def sentinelVersion : Str := toL "2.2222.11"

/-- The `version` query parameter: `str(self.last_known_version) or "2.2222.11"`
(src line 80). -/
def versionQuery (last : Option Version) : Str :=
  pyOr (pyStrOptVersion last) sentinelVersion

/-- Externally visible actions of one poll cycle, in program order:
the HTTP version-check request, an invocation of the notification dispatch
(`_notify_change`), and a persisted baseline update (the
`last_known_version` setter, which saves the config). -/
inductive Action
  | request (version : Str) (platform : Str)
  | notify (old new : Version)
  | persist (v : Version)
deriving DecidableEq, Repr

/-- Outcome of the HTTP fetch as `_poll_once` observes it: either the
`currentVersion` string of a well-formed 2xx JSON response, or a failure
(network error, bad status, malformed JSON / missing field). -/
inductive FetchErr
  | network
  | badResponse
deriving DecidableEq, Repr

/-- One cycle of `_poll_once` (src lines 78–94): from the stored
`last_known_version` configuration value, the configured platform and the fetch
outcome, compute the ordered trace of actions and either the new configuration
value or the exception that escapes (to be caught by `poll`).

Faithful points: the `version` query parameter uses `str(...) or "2.2222.11"`;
the fetched `currentVersion` is parsed with `VersionInfo.parse`; the change
test is `last is None or current != last`; when a baseline exists the dispatch
is invoked (its exceptions are caught at src lines 90–93, so the rest of the
cycle does not depend on its outcome) and only then is the new baseline
persisted (src line 94). -/
def poll_once (cfg : Option Str) (plat : Str) (fetch : Except FetchErr Str) :
    List Action × Except PollErr (Option Str) :=
  match last_known_version cfg with
  | .error e => ([], .error e)
  | .ok last =>
    let req := Action.request (versionQuery last) plat
    match fetch with
    | .error .network => ([req], .error .network)
    | .error .badResponse => ([req], .error .badResponse)
    | .ok body =>
      match parseVersion body with
      | none => ([req], .error .parse)
      | some current =>
        if last = some current then ([req], .ok cfg)
        else
          match last with
          | none => ([req, .persist current], .ok (some (renderVersion current)))
          | some old =>
            ([req, .notify old current, .persist current],
              .ok (some (renderVersion current)))

/-- One iteration of the `while True` body of `poll` (src lines 70–76): run
`_poll_once`, catch and log any exception (leaving the configuration as it
was), then sleep `60 * 60` seconds.  Returns the configuration after the
iteration, the action trace, and the sleep interval in seconds. -/
def pollStep (cfg : Option Str) (plat : Str) (fetch : Except FetchErr Str) :
    Option Str × List Action × Nat :=
  match poll_once cfg plat fetch with
  | (tr, .ok cfg2) => (cfg2, tr, 60 * 60)
  | (tr, .error _) => (cfg, tr, 60 * 60)

/-- Whether an action is an invocation of the notification dispatch. -/
def isNotifyAct : Action → Bool
  | .notify _ _ => true
  | _ => false

/-- Whether an action is a persisted baseline update. -/
def isPersistAct : Action → Bool
  | .persist _ => true
  | _ => false

/-- A fetch outcome that `_poll_once` cannot turn into a version: a transport
failure or a response whose `currentVersion` field does not parse. -/
def fetchFails : Except FetchErr Str → Bool
  | .error _ => true
  | .ok s => (parseVersion s).isNone

/-! ## Notification fan-out `_notify_change` (src lines 96–121) -/

/-- The action word of the formatted message (src line 107):
`"updated" if new_version > old_version else "downgraded"`. -/
def actionWord (old_version new_version : Version) : Str :=
  if verGt new_version old_version then toL "updated" else toL "downgraded"

/-- How the transport behaves when `send_markdown` is called for one room. -/
inductive SendOutcome
  | ok
  | forbidden
  | err
deriving DecidableEq, Repr

/-- How the transport behaves when `leave_room` is called for one room. -/
inductive LeaveOutcome
  | ok
  | err
deriving DecidableEq, Repr

/-- Per-room behaviour of the external transport during one fan-out. -/
structure RoomBehavior where
  send : SendOutcome
  leave : LeaveOutcome
deriving DecidableEq, Repr

/-- The exceptions the transport calls can raise: `MForbidden` or any other
`Exception`. -/
inductive Exc
  | mForbidden
  | other
deriving DecidableEq, Repr

/-- A call of `client.send_markdown(room_id, msg)` under the given behaviour.  The
formatted message is carried but the behaviour oracle decides the outcome. -/
def sendMarkdown (_msg : Str) (b : RoomBehavior) : Except Exc Unit :=
  match b.send with
  | .ok => .ok ()
  | .forbidden => .error .mForbidden
  | .err => .error .other

/-- A call of `client.leave_room(room_id)` under the given behaviour. -/
def leaveRoom (b : RoomBehavior) : Except Exc Unit :=
  match b.leave with
  | .ok => .ok ()
  | .err => .error .other

/-- Observable events of the fan-out: a delivered message, the warning logged
on `MForbidden`, a successful leave, the logged failure of a leave, and the
logged failure of a send for any other exception. -/
inductive NotifyLog
  | delivered (room : Nat) (msg : Str)
  | warnForbidden (room : Nat)
  | leftRoom (room : Nat)
  | logLeaveFailed (room : Nat)
  | logSendFailed (room : Nat)
deriving DecidableEq, Repr

/-- The body of the `for room_id in ...` loop (src lines 112–121) for one room:
try to send; on `MForbidden` log a warning and try to leave, logging and
swallowing any failure of the leave; on any other exception log it.  The two
`except` clauses make the handler total: it returns `Except` only to mirror
the Python exception flow, and every branch ends in `.ok`. -/
def handleRoom (room : Nat) (msg : Str) (b : RoomBehavior) : Except Exc (List NotifyLog) :=
  match sendMarkdown msg b with
  | .ok _ => .ok [.delivered room msg]
  | .error .mForbidden =>
    match leaveRoom b with
    | .ok _ => .ok [.warnForbidden room, .leftRoom room]
    | .error _ => .ok [.warnForbidden room, .logLeaveFailed room]
  | .error .other => .ok [.logSendFailed room]

/-- The events one room contributes to the fan-out (the value `handleRoom`
always succeeds with). -/
def roomLogs (room : Nat) (msg : Str) (b : RoomBehavior) : List NotifyLog :=
  match b.send with
  | .ok => [.delivered room msg]
  | .forbidden =>
    match b.leave with
    | .ok => [.warnForbidden room, .leftRoom room]
    | .err => [.warnForbidden room, .logLeaveFailed room]
  | .err => [.logSendFailed room]

/-- The fan-out of `_notify_change` over the joined rooms (src lines 111–121),
sequencing `handleRoom` and propagating any exception that would escape a loop
iteration. -/
def notify_change (msg : Str) (rooms : List (Nat × RoomBehavior)) :
    Except Exc (List NotifyLog) :=
  match rooms with
  | [] => .ok []
  | (r, b) :: rest =>
    match handleRoom r msg b with
    | .error e => .error e
    | .ok logs =>
      match notify_change msg rest with
      | .error e => .error e
      | .ok more => .ok (logs ++ more)

/-- The concatenated per-room events of a whole fan-out. -/
def fanoutLogs (msg : Str) (rooms : List (Nat × RoomBehavior)) : List NotifyLog :=
  match rooms with
  | [] => []
  | (r, b) :: rest => roomLogs r msg b ++ fanoutLogs msg rest

/-- The rooms for which a log entry records a delivery attempt (the handler of
each room emits exactly one of `delivered`, `warnForbidden` or `logSendFailed`
as its first event, one per attempted send). -/
def attemptedRooms (logs : List NotifyLog) : List Nat :=
  logs.filterMap fun l =>
    match l with
    | .delivered r _ => some r
    | .warnForbidden r => some r
    | .logSendFailed r => some r
    | _ => none

/-! ## Startup (src lines 49–58)

The startup of the plugin is `load_and_update` followed by spawning the poll
task.  The validation inside `load_and_update` belongs to the external
configuration collaborator (mautrix `BaseProxyConfig` plus the base config of
the plugin, outside src/); it is modelled from the spec. -/

/-- Fatal startup errors. -/
inductive ConfigError
  | missingPlatform
deriving DecidableEq, Repr

/-- The raw configuration presented to startup. -/
structure RawConfig where
  platform : Option Str
  lastKnown : Option Str
deriving DecidableEq, Repr

/-- Modelled from the spec: the configuration load contract (§4.2), implemented
outside src/ by the external configuration collaborator — it "reads platform
(required, fails with `ConfigError` if absent) and last_known_version
(optional; absent/empty means no baseline)". -/
def load_and_update (c : RawConfig) : Except ConfigError RawConfig :=
  match c.platform with
  | none => .error .missingPlatform
  | some _ => .ok c

/-- Startup `start` (src lines 49–51): run `load_and_update`, then — only if it
returned — spawn the poll task.  The boolean records whether the poll task was
started. -/
def start (c : RawConfig) : Except ConfigError Bool :=
  match load_and_update c with
  | .error e => .error e
  | .ok _ => .ok true

/-- Whether startup started the poll loop. -/
def pollLoopStarted (c : RawConfig) : Bool :=
  match start c with
  | .ok b => b
  | .error _ => false

end WAWeb

namespace WAWeb

/-! ## Decimal digits: basic facts -/

theorem digitVal_digitChar {d : Nat} (h : d < 10) : digitVal (Nat.digitChar d) = d := by
  interval_cases d <;> decide

theorem isDigit_digitChar {d : Nat} (h : d < 10) : (Nat.digitChar d).isDigit = true := by
  interval_cases d <;> decide

theorem digitChar_ne_zeroChar {d : Nat} (h0 : 0 < d) (h10 : d < 10) :
    Nat.digitChar d ≠ '0' := by
  interval_cases d <;> decide

theorem natDigitsAux_zero (fuel : Nat) : natDigitsAux fuel 0 = [] := by
  cases fuel <;> rfl

theorem natDigitsAux_isDigit : ∀ (fuel n : Nat), ∀ c ∈ natDigitsAux fuel n, c.isDigit = true
  | 0, _ => by intro c hc; simp [natDigitsAux] at hc
  | _ + 1, 0 => by intro c hc; simp [natDigitsAux] at hc
  | fuel + 1, n + 1 => by
    intro c hc
    simp only [natDigitsAux, List.mem_cons] at hc
    rcases hc with rfl | hc
    · exact isDigit_digitChar (Nat.mod_lt _ (by omega))
    · exact natDigitsAux_isDigit fuel ((n + 1) / 10) c hc

theorem foldl_digitVal_natDigitsAux :
    ∀ (fuel n acc : Nat), n ≤ fuel →
      List.foldl (fun a c => a * 10 + digitVal c) acc (natDigitsAux fuel n).reverse
        = acc * 10 ^ (natDigitsAux fuel n).length + n
  | 0, n, acc => by
    intro h
    interval_cases n
    simp [natDigitsAux]
  | fuel + 1, 0, acc => by intro _; simp [natDigitsAux]
  | fuel + 1, n + 1, acc => by
    intro h
    have hq : (n + 1) / 10 ≤ fuel := by
      have h2 : (n + 1) / 10 < n + 1 := Nat.div_lt_self (by omega) (by omega)
      omega
    have hr : (n + 1) % 10 < 10 := Nat.mod_lt _ (by omega)
    have hdm : 10 * ((n + 1) / 10) + (n + 1) % 10 = n + 1 := Nat.div_add_mod (n + 1) 10
    simp only [natDigitsAux, List.reverse_cons, List.foldl_append, List.foldl_cons,
      List.foldl_nil, List.length_cons]
    rw [foldl_digitVal_natDigitsAux fuel ((n + 1) / 10) acc hq, digitVal_digitChar hr]
    calc (acc * 10 ^ (natDigitsAux fuel ((n + 1) / 10)).length + (n + 1) / 10) * 10
          + (n + 1) % 10
        = acc * (10 ^ (natDigitsAux fuel ((n + 1) / 10)).length * 10)
          + (10 * ((n + 1) / 10) + (n + 1) % 10) := by ring
    _ = acc * 10 ^ ((natDigitsAux fuel ((n + 1) / 10)).length + 1) + (n + 1) := by
        rw [hdm, pow_succ]

theorem natDigitsAux_reverse_head :
    ∀ (fuel n : Nat), 0 < n → n ≤ fuel →
      ∃ d, 0 < d ∧ d < 10 ∧ ((natDigitsAux fuel n).reverse).head? = some (Nat.digitChar d)
  | 0, n => by intro h1 h2; omega
  | fuel + 1, 0 => by intro h1 _; omega
  | fuel + 1, n + 1 => by
    intro _ h2
    have hq : (n + 1) / 10 ≤ fuel := by
      have h3 : (n + 1) / 10 < n + 1 := Nat.div_lt_self (by omega) (by omega)
      omega
    by_cases hzero : (n + 1) / 10 = 0
    · have hlt : n + 1 < 10 := by
        rcases Nat.lt_or_ge (n + 1) 10 with h | h
        · exact h
        · exact absurd ((Nat.one_le_div_iff (by omega)).mpr h) (by omega)
      refine ⟨n + 1, by omega, hlt, ?_⟩
      simp [natDigitsAux, hzero, natDigitsAux_zero, Nat.mod_eq_of_lt hlt]
    · obtain ⟨d, hd0, hd10, hh⟩ :=
        natDigitsAux_reverse_head fuel ((n + 1) / 10) (Nat.pos_of_ne_zero hzero) hq
      refine ⟨d, hd0, hd10, ?_⟩
      simp only [natDigitsAux, List.reverse_cons]
      cases hcase : (natDigitsAux fuel ((n + 1) / 10)).reverse with
      | nil => rw [hcase] at hh; simp at hh
      | cons y ys => rw [hcase] at hh; simpa using hh

theorem parseNat_renderNat (n : Nat) : parseNat (renderNat n) = some n := by
  rcases Nat.eq_zero_or_pos n with rfl | hpos
  · decide
  · have hne0 : n ≠ 0 := by omega
    obtain ⟨d, hd0, hd10, hh⟩ := natDigitsAux_reverse_head n n hpos le_rfl
    have hnil : (natDigitsAux n n).reverse ≠ [] := by
      intro he
      rw [he] at hh
      simp at hh
    have hdig : (natDigitsAux n n).reverse.all Char.isDigit = true := by
      rw [List.all_eq_true]
      intro c hc
      exact natDigitsAux_isDigit n n c (List.mem_reverse.mp hc)
    have hhead : ¬((natDigitsAux n n).reverse.head? = some '0'
        ∧ (natDigitsAux n n).reverse ≠ ['0']) := by
      rintro ⟨h1, _⟩
      rw [hh] at h1
      exact digitChar_ne_zeroChar hd0 hd10 (by injection h1)
    rw [renderNat, if_neg hne0, parseNat, if_neg hnil]
    rw [hdig]
    simp only [Bool.true_eq_false, if_false, if_neg hhead]
    rw [foldl_digitVal_natDigitsAux n n 0 le_rfl]
    simp

end WAWeb

namespace WAWeb

/-! ## Rendered numerals and version strings -/

theorem renderNat_isDigit (n : Nat) : ∀ c ∈ renderNat n, c.isDigit = true := by
  intro c hc
  rw [renderNat] at hc
  split at hc
  · simp only [List.mem_singleton] at hc
    subst hc
    decide
  · exact natDigitsAux_isDigit n n c (List.mem_reverse.mp hc)

theorem renderNat_ne_dot (n : Nat) : ∀ c ∈ renderNat n, c ≠ '.' := by
  intro c hc he
  subst he
  have h := renderNat_isDigit n '.' hc
  simp [Char.isDigit] at h

theorem renderNat_ne_nil (n : Nat) : renderNat n ≠ [] := by
  rw [renderNat]
  split
  · simp
  · rw [Ne, List.reverse_eq_nil_iff]
    cases hn : n with
    | zero => simp_all
    | succ m => simp [natDigitsAux]

theorem renderVersion_ne_nil (v : Version) : renderVersion v ≠ [] := by
  rw [renderVersion]
  intro h
  have h2 := List.append_eq_nil.mp h
  simp at h2

theorem splitOnDot_ne_nil : ∀ l : Str, splitOnDot l ≠ []
  | [] => by simp [splitOnDot]
  | c :: rest => by
    simp only [splitOnDot]
    split
    · simp
    · split <;> simp

theorem splitOnDot_no_dot : ∀ l : Str, (∀ c ∈ l, c ≠ '.') → splitOnDot l = [l]
  | [] => fun _ => rfl
  | c :: rest => fun h => by
    have hc : c ≠ '.' := h c (by simp)
    have ih := splitOnDot_no_dot rest (fun x hx => h x (by simp [hx]))
    simp only [splitOnDot, if_neg hc, ih]

theorem splitOnDot_append :
    ∀ (a r : Str), (∀ c ∈ a, c ≠ '.') → splitOnDot (a ++ '.' :: r) = a :: splitOnDot r
  | [], r => fun _ => by simp [splitOnDot]
  | c :: a, r => fun h => by
    have hc : c ≠ '.' := h c (by simp)
    have ih := splitOnDot_append a r (fun x hx => h x (by simp [hx]))
    simp only [List.cons_append, splitOnDot, if_neg hc, List.append_eq, ih]

theorem parseVersion_renderVersion (v : Version) : parseVersion (renderVersion v) = some v := by
  obtain ⟨a, b, c⟩ := v
  rw [parseVersion, renderVersion]
  rw [splitOnDot_append _ _ (renderNat_ne_dot a), splitOnDot_append _ _ (renderNat_ne_dot b),
    splitOnDot_no_dot _ (renderNat_ne_dot c)]
  simp [parseNat_renderNat]

/-! ## The getter on well-formed stored values -/

theorem last_known_version_of_parse {s : Str} {b : Version} (h : parseVersion s = some b) :
    last_known_version (some s) = .ok (some b) := by
  have hne : s ≠ [] := by
    intro he
    subst he
    simp [parseVersion, splitOnDot] at h
  simp [last_known_version, hne, h]

/-! ## Version ordering -/

theorem verGt_iff {a b : Version} :
    verGt a b = true
      ↔ (b.major < a.major
          ∨ (b.major = a.major
              ∧ (b.minor < a.minor ∨ (b.minor = a.minor ∧ b.patch < a.patch)))) := by
  rcases a with ⟨x1, y1, z1⟩
  rcases b with ⟨x2, y2, z2⟩
  simp only [verGt]
  split_ifs <;> simp <;> omega

theorem verGt_asymm {a b : Version} (h : verGt a b = true) : verGt b a = false := by
  rw [verGt_iff] at h
  rw [Bool.eq_false_iff, Ne, verGt_iff]
  omega

end WAWeb

namespace WAWeb

/-! ## Evaluating one poll cycle -/

theorem versionQuery_none : versionQuery none = toL "None" := by decide

theorem versionQuery_some (b : Version) : versionQuery (some b) = renderVersion b := by
  simp [versionQuery, pyStrOptVersion, pyOr, renderVersion_ne_nil b]

theorem poll_once_first {s : Str} {v : Version} (plat : Str) (hs : parseVersion s = some v) :
    poll_once none plat (.ok s)
      = ([.request (toL "None") plat, .persist v], .ok (some (renderVersion v))) := by
  simp [poll_once, last_known_version, hs, versionQuery_none]

theorem poll_once_change {cs s : Str} {b v : Version} (plat : Str)
    (hc : parseVersion cs = some b) (hs : parseVersion s = some v) (hne : v ≠ b) :
    poll_once (some cs) plat (.ok s)
      = ([.request (renderVersion b) plat, .notify b v, .persist v],
          .ok (some (renderVersion v))) := by
  have hbv : ¬b = v := fun h2 => hne h2.symm
  simp [poll_once, last_known_version_of_parse hc, hs, versionQuery_some, hbv]

theorem poll_once_equal {cs s : Str} {b : Version} (plat : Str)
    (hc : parseVersion cs = some b) (hs : parseVersion s = some b) :
    poll_once (some cs) plat (.ok s) = ([.request (renderVersion b) plat], .ok (some cs)) := by
  simp [poll_once, last_known_version_of_parse hc, hs, versionQuery_some]

/-! ## Evaluating the fan-out -/

theorem handleRoom_eq (r : Nat) (msg : Str) (b : RoomBehavior) :
    handleRoom r msg b = .ok (roomLogs r msg b) := by
  rcases b with ⟨s, l⟩
  cases s <;> cases l <;> rfl

theorem notify_change_eq (msg : Str) :
    ∀ rooms, notify_change msg rooms = .ok (fanoutLogs msg rooms)
  | [] => rfl
  | (r, b) :: rest => by
    simp only [notify_change, handleRoom_eq, notify_change_eq msg rest, fanoutLogs]

theorem attemptedRooms_append (l1 l2 : List NotifyLog) :
    attemptedRooms (l1 ++ l2) = attemptedRooms l1 ++ attemptedRooms l2 := by
  simp [attemptedRooms, List.filterMap_append]

theorem attemptedRooms_roomLogs (r : Nat) (msg : Str) (b : RoomBehavior) :
    attemptedRooms (roomLogs r msg b) = [r] := by
  rcases b with ⟨s, l⟩
  cases s <;> cases l <;> rfl

theorem attemptedRooms_fanoutLogs (msg : Str) :
    ∀ rooms, attemptedRooms (fanoutLogs msg rooms) = rooms.map Prod.fst
  | [] => rfl
  | (r, b) :: rest => by
    simp only [fanoutLogs, attemptedRooms_append, attemptedRooms_roomLogs,
      attemptedRooms_fanoutLogs msg rest, List.map_cons]
    rfl

theorem fanoutLogs_append (msg : Str) :
    ∀ xs ys, fanoutLogs msg (xs ++ ys) = fanoutLogs msg xs ++ fanoutLogs msg ys
  | [], _ => rfl
  | (r, b) :: xs, ys => by
    simp [fanoutLogs, fanoutLogs_append msg xs ys]

theorem roomLogs_forbidden (r : Nat) (msg : Str) (lv : LeaveOutcome) :
    roomLogs r msg ⟨.forbidden, lv⟩
      = .warnForbidden r
        :: (if lv = .err then [NotifyLog.logLeaveFailed r] else [NotifyLog.leftRoom r]) := by
  cases lv <;> rfl

end WAWeb

namespace WAWeb

/-! ## Claim theorems -/

/-- Claim C1, counterexample: at the concrete cycle with baseline "2.22.1" and fetched
version "2.22.5", both a persist and a notification dispatch occur, and the persist
does NOT precede the dispatch — the dispatch is at index 1 of the trace and the
persist at index 2, refuting "the new baseline is persisted before the notification
dispatch is invoked". -/
theorem notify_precedes_persist_cex :
    ((poll_once (some (toL "2.22.1")) (toL "web") (.ok (toL "2.22.5"))).1.findIdx?
        isPersistAct).isSome = true
    ∧ ((poll_once (some (toL "2.22.1")) (toL "web") (.ok (toL "2.22.5"))).1.findIdx?
        isNotifyAct).isSome = true
    ∧ ¬(((poll_once (some (toL "2.22.1")) (toL "web") (.ok (toL "2.22.5"))).1.findIdx?
            isPersistAct).getD 0
          < ((poll_once (some (toL "2.22.1")) (toL "web") (.ok (toL "2.22.5"))).1.findIdx?
            isNotifyAct).getD 0) := by
  decide

/-- Claim C1, amended: in every cycle where a baseline exists and the fetched version
differs from it, the notification dispatch is invoked first (trace index 1, right
after the request) and the new baseline is persisted only afterwards (trace index 2),
so a crash during notification can leave the old baseline persisted and produce a
duplicate notification for the same transition on restart. -/
theorem notify_then_persist (cs s : Str) (b v : Version) (plat : Str)
    (hc : parseVersion cs = some b) (hs : parseVersion s = some v) (hne : v ≠ b) :
    (poll_once (some cs) plat (.ok s)).1
        = [.request (renderVersion b) plat, .notify b v, .persist v]
    ∧ (poll_once (some cs) plat (.ok s)).1.findIdx? isNotifyAct = some 1
    ∧ (poll_once (some cs) plat (.ok s)).1.findIdx? isPersistAct = some 2 := by
  have h := poll_once_change plat hc hs hne
  refine ⟨by rw [h], by rw [h]; rfl, by rw [h]; rfl⟩

/-- Witness for the amended C1 theorem at baseline "2.22.1", fetched "2.22.5". -/
theorem notify_then_persist_witness :
    parseVersion (toL "2.22.1") = some ⟨2, 22, 1⟩
    ∧ parseVersion (toL "2.22.5") = some ⟨2, 22, 5⟩
    ∧ (⟨2, 22, 5⟩ : Version) ≠ ⟨2, 22, 1⟩
    ∧ ((poll_once (some (toL "2.22.1")) (toL "web") (.ok (toL "2.22.5"))).1
          = [.request (renderVersion ⟨2, 22, 1⟩) (toL "web"),
              .notify ⟨2, 22, 1⟩ ⟨2, 22, 5⟩, .persist ⟨2, 22, 5⟩]
        ∧ (poll_once (some (toL "2.22.1")) (toL "web")
            (.ok (toL "2.22.5"))).1.findIdx? isNotifyAct = some 1
        ∧ (poll_once (some (toL "2.22.1")) (toL "web")
            (.ok (toL "2.22.5"))).1.findIdx? isPersistAct = some 2) :=
  ⟨by decide, by decide, by decide,
    notify_then_persist (toL "2.22.1") (toL "2.22.5") ⟨2, 22, 1⟩ ⟨2, 22, 5⟩ (toL "web")
      (by decide) (by decide) (by decide)⟩

/-- Claim C2 (code bug in src line 80): when no baseline exists, the `version` query
parameter is the literal string "None" — `str(None)` is truthy, so the
`or "2.2222.11"` fallback can never fire and the sentinel is dead code.  The claim
(and the evident intent of the code) says the sentinel "2.2222.11" would be sent. -/
theorem sentinel_fallback_dead :
    versionQuery none = toL "None"
    ∧ versionQuery none ≠ sentinelVersion
    ∧ (poll_once none (toL "web") (.ok (toL "2.22.1"))).1
        = [.request (toL "None") (toL "web"), .persist ⟨2, 22, 1⟩] := by
  decide

/-- Claim C3: if the required `platform` option is absent, startup fails with a
`ConfigError` and the poll loop is not started.  The required-field validation is
modelled from the spec (§4.2); the sequencing — `load_and_update` before the task
spawn — is src lines 49–51. -/
theorem start_missing_platform_fails (c : RawConfig) (h : c.platform = none) :
    start c = .error ConfigError.missingPlatform ∧ pollLoopStarted c = false := by
  simp [start, load_and_update, pollLoopStarted, h]

/-- Witness for C3 at the empty configuration. -/
theorem start_missing_platform_fails_witness :
    (RawConfig.mk none none).platform = none
    ∧ (start (RawConfig.mk none none) = .error ConfigError.missingPlatform
        ∧ pollLoopStarted (RawConfig.mk none none) = false) :=
  ⟨rfl, start_missing_platform_fails (RawConfig.mk none none) rfl⟩

/-- Claim C4: for every change-event message and every sequence of destinations, the
fan-out never raises (it always returns `.ok`), and every destination — whatever the
per-destination outcomes — gets exactly one delivery attempt, in order: a
failure at one destination never prevents the attempts on the remaining ones. -/
theorem notify_fanout_isolated (msg : Str) (rooms : List (Nat × RoomBehavior)) :
    notify_change msg rooms = .ok (fanoutLogs msg rooms)
    ∧ attemptedRooms (fanoutLogs msg rooms) = rooms.map Prod.fst :=
  ⟨notify_change_eq msg rooms, attemptedRooms_fanoutLogs msg rooms⟩

/-- Claim C5: in a cycle with no baseline, the fetched version is persisted as the new
baseline (and reads back as the adopted baseline) and the trace contains no
notification dispatch — silent first-run adoption. -/
theorem first_run_silent_adoption (s : Str) (v : Version) (plat : Str)
    (hs : parseVersion s = some v) :
    poll_once none plat (.ok s)
        = ([.request (toL "None") plat, .persist v], .ok (some (renderVersion v)))
    ∧ last_known_version (some (renderVersion v)) = .ok (some v)
    ∧ ((poll_once none plat (.ok s)).1.all fun a => !isNotifyAct a) = true := by
  have h := poll_once_first plat hs
  exact ⟨h, last_known_version_of_parse (parseVersion_renderVersion v), by rw [h]; rfl⟩

/-- Witness for C5 with fetched version "2.22.1". -/
theorem first_run_silent_adoption_witness :
    parseVersion (toL "2.22.1") = some ⟨2, 22, 1⟩
    ∧ (poll_once none (toL "web") (.ok (toL "2.22.1"))
          = ([.request (toL "None") (toL "web"), .persist ⟨2, 22, 1⟩],
              .ok (some (renderVersion ⟨2, 22, 1⟩)))
        ∧ last_known_version (some (renderVersion ⟨2, 22, 1⟩)) = .ok (some ⟨2, 22, 1⟩)
        ∧ ((poll_once none (toL "web")
            (.ok (toL "2.22.1"))).1.all fun a => !isNotifyAct a) = true) :=
  ⟨by decide, first_run_silent_adoption (toL "2.22.1") ⟨2, 22, 1⟩ (toL "web") (by decide)⟩

/-- Claim C6: whenever a baseline `b` exists and the fetched version `v` differs from
it (in either direction), the cycle persists `v` as the new baseline (which reads
back as `v`), invokes the dispatch with old `b` and new `v`, and the dispatched
action word is "updated" when `v > b` and "downgraded" when `v < b`. -/
theorem change_updates_baseline_and_action (cs s : Str) (b v : Version) (plat : Str)
    (hc : parseVersion cs = some b) (hs : parseVersion s = some v) (hne : v ≠ b) :
    poll_once (some cs) plat (.ok s)
        = ([.request (renderVersion b) plat, .notify b v, .persist v],
            .ok (some (renderVersion v)))
    ∧ last_known_version (some (renderVersion v)) = .ok (some v)
    ∧ (verGt v b = true → actionWord b v = toL "updated")
    ∧ (verGt b v = true → actionWord b v = toL "downgraded") := by
  refine ⟨poll_once_change plat hc hs hne,
    last_known_version_of_parse (parseVersion_renderVersion v), ?_, ?_⟩
  · intro hgt
    simp [actionWord, hgt]
  · intro hlt
    simp [actionWord, verGt_asymm hlt]

/-- Witness for C6: upgrade from "2.22.1" to "2.22.5". -/
theorem change_updates_baseline_and_action_witness :
    parseVersion (toL "2.22.1") = some ⟨2, 22, 1⟩
    ∧ parseVersion (toL "2.22.5") = some ⟨2, 22, 5⟩
    ∧ (⟨2, 22, 5⟩ : Version) ≠ ⟨2, 22, 1⟩
    ∧ (poll_once (some (toL "2.22.1")) (toL "web") (.ok (toL "2.22.5"))
          = ([.request (renderVersion ⟨2, 22, 1⟩) (toL "web"),
              .notify ⟨2, 22, 1⟩ ⟨2, 22, 5⟩, .persist ⟨2, 22, 5⟩],
              .ok (some (renderVersion ⟨2, 22, 5⟩)))
        ∧ last_known_version (some (renderVersion ⟨2, 22, 5⟩)) = .ok (some ⟨2, 22, 5⟩)
        ∧ (verGt ⟨2, 22, 5⟩ ⟨2, 22, 1⟩ = true → actionWord ⟨2, 22, 1⟩ ⟨2, 22, 5⟩ = toL "updated")
        ∧ (verGt ⟨2, 22, 1⟩ ⟨2, 22, 5⟩ = true
            → actionWord ⟨2, 22, 1⟩ ⟨2, 22, 5⟩ = toL "downgraded")) :=
  ⟨by decide, by decide, by decide,
    change_updates_baseline_and_action (toL "2.22.1") (toL "2.22.5") ⟨2, 22, 1⟩ ⟨2, 22, 5⟩
      (toL "web") (by decide) (by decide) (by decide)⟩

/-- Claim C7: in every cycle whose fetch fails (transport error, bad status, malformed
body, or unparsable `currentVersion`), the persisted configuration is unchanged, the
trace contains neither a dispatch nor a persist, and the loop sleeps the normal
60 * 60 second interval before the next cycle. -/
theorem fetch_failure_noop_cycle (cfg : Option Str) (plat : Str)
    (fetch : Except FetchErr Str) (h : fetchFails fetch = true) :
    (pollStep cfg plat fetch).1 = cfg
    ∧ ((pollStep cfg plat fetch).2.1.all fun a => !isNotifyAct a && !isPersistAct a) = true
    ∧ (pollStep cfg plat fetch).2.2 = 60 * 60 := by
  cases fetch with
  | error e =>
    cases hlk : last_known_version cfg with
    | error _pe =>
      cases e <;> simp [pollStep, poll_once, hlk]
    | ok _last =>
      cases e <;> simp [pollStep, poll_once, hlk, isNotifyAct, isPersistAct]
  | ok s =>
    have hp : parseVersion s = none := by
      simpa [fetchFails, Option.isNone_iff_eq_none] using h
    cases hlk : last_known_version cfg with
    | error _pe => simp [pollStep, poll_once, hlk]
    | ok _last => simp [pollStep, poll_once, hlk, hp, isNotifyAct, isPersistAct]

/-- Witness for C7: a network error with no stored baseline. -/
theorem fetch_failure_noop_cycle_witness :
    fetchFails (.error .network) = true
    ∧ ((pollStep none (toL "web") (.error .network)).1 = none
        ∧ ((pollStep none (toL "web") (.error .network)).2.1.all
            fun a => !isNotifyAct a && !isPersistAct a) = true
        ∧ (pollStep none (toL "web") (.error .network)).2.2 = 60 * 60) :=
  ⟨by decide, fetch_failure_noop_cycle none (toL "web") (.error .network) (by decide)⟩

/-- Claim C8: in every cycle where the fetched version equals the existing baseline,
the configuration value is returned unchanged and the trace consists of the request
alone — no dispatch, no persist. -/
theorem equal_version_noop (cs s : Str) (b : Version) (plat : Str)
    (hc : parseVersion cs = some b) (hs : parseVersion s = some b) :
    poll_once (some cs) plat (.ok s) = ([.request (renderVersion b) plat], .ok (some cs)) :=
  poll_once_equal plat hc hs

/-- Witness for C8: baseline "2.22.1", fetched "2.22.1". -/
theorem equal_version_noop_witness :
    parseVersion (toL "2.22.1") = some ⟨2, 22, 1⟩
    ∧ poll_once (some (toL "2.22.1")) (toL "web") (.ok (toL "2.22.1"))
        = ([.request (renderVersion ⟨2, 22, 1⟩) (toL "web")], .ok (some (toL "2.22.1"))) :=
  ⟨by decide,
    equal_version_noop (toL "2.22.1") (toL "2.22.1") ⟨2, 22, 1⟩ (toL "web")
      (by decide) (by decide)⟩

/-- Claim C9: whenever the send to some destination fails with the forbidden class, the
fan-out logs a warning for it and attempts the removal; a failing removal is logged
and swallowed (the fan-out still returns `.ok`), and every destination after it is
still attempted. -/
theorem forbidden_removal_swallowed (msg : Str) (pre post : List (Nat × RoomBehavior))
    (r : Nat) (lv : LeaveOutcome) :
    notify_change msg (pre ++ (r, ⟨.forbidden, lv⟩) :: post)
        = .ok (fanoutLogs msg pre
            ++ (NotifyLog.warnForbidden r
                :: (if lv = .err then [NotifyLog.logLeaveFailed r] else [NotifyLog.leftRoom r]))
            ++ fanoutLogs msg post)
    ∧ attemptedRooms (fanoutLogs msg post) = post.map Prod.fst := by
  constructor
  · rw [notify_change_eq, fanoutLogs_append]
    simp [fanoutLogs, roomLogs_forbidden, List.append_assoc]
  · exact attemptedRooms_fanoutLogs msg post

/-- Claim C10: parsing the string rendering of any version yields it back, and a
baseline stored through the setter reads back through the getter as an equal
version. -/
theorem parse_render_roundtrip (v : Version) :
    parseVersion (renderVersion v) = some v
    ∧ last_known_version (set_last_known_version v) = .ok (some v) := by
  refine ⟨parseVersion_renderVersion v, ?_⟩
  rw [set_last_known_version]
  exact last_known_version_of_parse (parseVersion_renderVersion v)

end WAWeb
